import Mathlib

/-!
Platform classification and the link-layer address accessor of `src/helpers.c`.

The file has two parts.

* Lines 1-59 are preprocessor directives.  They read target-identification
  symbols, define the `OS_*` macros, raise two `#error` diagnostics and pick
  the headers to include.  They are embedded as a function from the symbols
  read (`Target`) to the resulting state of the translation unit (`TU`), one
  Lean definition per directive group, composed in source order.
* Lines 62-64 are the C function `rust_LLADDR`.  It is embedded as a
  state-passing function on an explicit byte-addressed machine state.
-/

namespace Helpers

/-! ## Preprocessor symbols -/

/-- A preprocessor symbol: `none` when it is not defined, `some v` when it
is defined with the integer value `v`. -/
abbrev Macro := Option Int

/-- The preprocessor operator `defined(X)`, also tested by `#ifdef X`. -/
def defined (m : Macro) : Bool := m.isSome

/-- The value of an identifier inside a `#if` / `#elif` expression: an
identifier that is not defined evaluates to `0`. -/
def value (m : Macro) : Int := m.getD 0

/-- The test of `#if X` / `#elif X`: the group is taken when the expression is
non-zero. -/
def truthy (m : Macro) : Bool := value m != 0

/-- The symbols `helpers.c` reads, each as it is seen by the directive that
tests it.  `BSD` is provided by `<sys/param.h>` (line 3) and the three
`TARGET_*` symbols by `"TargetConditionals.h"` (line 16); both are system
headers, so what they define is an input here. -/
structure Target where
  _WIN32 : Macro := none
  _WIN64 : Macro := none
  __APPLE__ : Macro := none
  __MACH__ : Macro := none
  TARGET_IPHONE_SIMULATOR : Macro := none
  TARGET_OS_IPHONE : Macro := none
  TARGET_OS_MAC : Macro := none
  __linux__ : Macro := none
  BSD : Macro := none
  __unix__ : Macro := none
  _POSIX_VERSION : Macro := none
deriving DecidableEq, Repr

/-- State of the translation unit while `helpers.c` is processed: the `OS_*`
macros the file defines, the headers included so far, the `#error`
diagnostics raised so far and the functions defined so far (each list in
source order). -/
structure TU where
  OS_WINDOWS : Macro := none
  OS_WIN32 : Macro := none
  OS_WIN64 : Macro := none
  OS_IOS : Macro := none
  OS_IOS_SIMULATOR : Macro := none
  OS_MACOS : Macro := none
  OS_LINUX : Macro := none
  OS_BSD : Macro := none
  OS_UNIX : Macro := none
  OS_POSIX : Macro := none
  includes : List String := []
  errors : List String := []
  functions : List String := []
deriving DecidableEq, Repr

/-- The directive `#include`: records the header. -/
def TU.include_ (u : TU) (h : String) : TU := { u with includes := u.includes ++ [h] }

/-- The directive `#error`: records the diagnostic. -/
def TU.error (u : TU) (msg : String) : TU := { u with errors := u.errors ++ [msg] }

/-- Lines 2-4: `<sys/param.h>` is included on Unix and on Apple/Mach. -/
def include_sys_param (t : Target) (u : TU) : TU :=
  if defined t.__unix__ || (defined t.__APPLE__ && defined t.__MACH__) then
    u.include_ "sys/param.h"
  else u

/-- Lines 7-32: the cascade `#ifdef _WIN32`, `#elif __APPLE__`,
`#elif __linux__`, `#elif defined(BSD)`. -/
def os_cascade (t : Target) (u : TU) : TU :=
  if defined t._WIN32 then
    let u := { u with OS_WINDOWS := some 1 }
    if defined t._WIN64 then
      { u with OS_WIN64 := some 1 }
    else
      { u with OS_WIN32 := some 1 }
  else if truthy t.__APPLE__ then
    let u := u.include_ "TargetConditionals.h"
    if truthy t.TARGET_IPHONE_SIMULATOR then
      { u with OS_IOS := some 1, OS_IOS_SIMULATOR := some 1 }
    else if truthy t.TARGET_OS_IPHONE then
      { u with OS_IOS := some 1 }
    else if truthy t.TARGET_OS_MAC then
      { u with OS_MACOS := some 1 }
    else
      u.error "Unknown Apple platform"
  else if truthy t.__linux__ then
    { u with OS_LINUX := some 1 }
  else if defined t.BSD then
    { u with OS_BSD := some 1 }
  else u

/-- Lines 35-37: `#if __unix__`. -/
def general_unix (t : Target) (u : TU) : TU :=
  if truthy t.__unix__ then { u with OS_UNIX := some 1 } else u

/-- Lines 39-41: `#if defined(_POSIX_VERSION)`. -/
def general_posix (t : Target) (u : TU) : TU :=
  if defined t._POSIX_VERSION then { u with OS_POSIX := some 1 } else u

/-- Lines 43-45: the final check on the `OS_*` macros defined so far. -/
def check_known (u : TU) : TU :=
  if !defined u.OS_LINUX && !defined u.OS_MACOS && !defined u.OS_IOS
      && !defined u.OS_WINDOWS && !defined u.OS_BSD then
    u.error "Unknown compiler"
  else u

/-- Lines 48-54: the unconditional includes. -/
def include_common (u : TU) : TU :=
  (((((u.include_ "stdlib.h").include_ "stdint.h").include_ "sys/ioctl.h").include_
    "sys/socket.h").include_ "net/if.h").include_ "ifaddrs.h"

/-- Lines 57-59: `<net/if_dl.h>` under `defined(OS_MACOS) || defined(OS_BSD)`. -/
def include_if_dl (u : TU) : TU :=
  if defined u.OS_MACOS || defined u.OS_BSD then u.include_ "net/if_dl.h" else u

/-- Lines 62-64: the definition of `rust_LLADDR`, under no conditional. -/
def define_rust_LLADDR (u : TU) : TU := { u with functions := u.functions ++ ["rust_LLADDR"] }

/-- Lines 1-45, the platform classifier: the directive groups in source order,
from the empty translation unit.  A `#error` records its diagnostic and
processing goes on, so that every diagnostic of the file is reported. -/
def classify (t : Target) : TU :=
  check_known (general_posix t (general_unix t (os_cascade t (include_sys_param t {}))))

/-- The whole file `helpers.c`: the classifier, then the includes and the
function definition of lines 48-64. -/
def helpers_c (t : Target) : TU :=
  define_rust_LLADDR (include_if_dl (include_common (classify t)))

/-- Translation fails when a `#error` was raised. -/
def TU.aborts (u : TU) : Bool := !u.errors.isEmpty

/-- The `OS_*` macros of the primary classification (lines 7-32), in the order
they appear in the file. -/
def TU.primary (u : TU) : List Macro :=
  [u.OS_WINDOWS, u.OS_WIN64, u.OS_WIN32, u.OS_IOS, u.OS_IOS_SIMULATOR, u.OS_MACOS,
    u.OS_LINUX, u.OS_BSD]

/-! ## Vocabulary of the specification: the four primary OS families -/

/-- The four primary OS families of the specification. -/
inductive Family where
  | windows
  | apple
  | linux
  | bsd
deriving DecidableEq, Repr

/-- The priority order of the specification: Windows, Apple, Linux, BSD. -/
def Family.order : List Family := [Family.windows, Family.apple, Family.linux, Family.bsd]

/-- The discriminator of a family is present: the test the cascade makes for it
(`#ifdef _WIN32`, `#elif __APPLE__`, `#elif __linux__`, `#elif defined(BSD)`). -/
def Family.present (t : Target) : Family → Bool
  | Family.windows => defined t._WIN32
  | Family.apple => truthy t.__APPLE__
  | Family.linux => truthy t.__linux__
  | Family.bsd => defined t.BSD

/-- A family is flagged in a translation unit: `OS_WINDOWS`; `OS_IOS` or
`OS_MACOS`; `OS_LINUX`; `OS_BSD`. -/
def Family.flagged (u : TU) : Family → Bool
  | Family.windows => defined u.OS_WINDOWS
  | Family.apple => defined u.OS_IOS || defined u.OS_MACOS
  | Family.linux => defined u.OS_LINUX
  | Family.bsd => defined u.OS_BSD

/-- The first family, in priority order, whose discriminator is present. -/
def first_family (t : Target) : Option Family := Family.order.find? (Family.present t)

/-- Auxiliary condition: no primary OS family is recognised; the Windows test
fails, and either the Apple test succeeds with no sub-target, or the Apple,
Linux and BSD tests all fail. -/
def no_family (t : Target) : Bool :=
  !defined t._WIN32 &&
    ((truthy t.__APPLE__ && !truthy t.TARGET_IPHONE_SIMULATOR && !truthy t.TARGET_OS_IPHONE
        && !truthy t.TARGET_OS_MAC)
      || (!truthy t.__APPLE__ && !truthy t.__linux__ && !defined t.BSD))

/-- Auxiliary condition: the Apple branch is entered and none of its three
tests succeeds. -/
def apple_unknown (t : Target) : Bool :=
  !defined t._WIN32 && truthy t.__APPLE__ && !truthy t.TARGET_IPHONE_SIMULATOR
    && !truthy t.TARGET_OS_IPHONE && !truthy t.TARGET_OS_MAC

/-! ## The accessor `rust_LLADDR` on an explicit machine state -/

/-- What the system headers fix for the target and `helpers.c` relies on: the
width and byte order of a pointer, the offset of `ifa_addr` in `struct ifaddrs`
(`<ifaddrs.h>`), and the offsets of `sdl_nlen` and `sdl_data` in
`struct sockaddr_dl` (`<net/if_dl.h>`).  The headers are not part of the
sources, so the layout is a parameter. -/
structure Layout where
  ptr_size : Nat
  big_endian : Bool
  ifa_addr : Nat
  sdl_nlen : Nat
  sdl_data : Nat
deriving DecidableEq, Repr

/-- Machine state: the byte stored at each address, and the blocks the
allocator has handed out (base address and size). -/
structure Machine where
  mem : Nat → Nat
  allocated : List (Nat × Nat)

/-- Load of one `unsigned char` / `uint8_t`. -/
def load_u8 (s : Machine) (a : Nat) : Nat × Machine := (s.mem a % 256, s)

/-- The `n` bytes stored from address `a` on, as `uint8_t` values. -/
def load_bytes (s : Machine) (a n : Nat) : List Nat :=
  (List.range n).map fun i => (load_u8 s (a + i)).1

/-- The number a little-endian byte sequence stands for. -/
def decode_le : List Nat → Nat
  | [] => 0
  | b :: bs => b + 256 * decode_le bs

/-- Load of a pointer-typed field. -/
def load_ptr (L : Layout) (s : Machine) (a : Nat) : Nat × Machine :=
  let bs := load_bytes s a L.ptr_size
  (decode_le (if L.big_endian then bs.reverse else bs), s)

/-- Modelled from the spec: the system macro `LLADDR` of `<net/if_dl.h>`, which
is not part of the sources.  On a `struct sockaddr_dl *s` it is
`(s)->sdl_data + (s)->sdl_nlen`: the start of the data area advanced by the
interface-name length, where the raw hardware address is stored. -/
def LLADDR (L : Layout) (s : Machine) (sdl : Nat) : Nat × Machine :=
  let (nlen, s) := load_u8 s (sdl + L.sdl_nlen)
  (sdl + L.sdl_data + nlen, s)

/-- Lines 62-64: `rust_LLADDR` loads the field `ifa_addr` of the record at
`ifap`, takes it as a `struct sockaddr_dl *` and applies `LLADDR`; the two
casts change the pointer type only. -/
def rust_LLADDR (L : Layout) (s : Machine) (ifap : Nat) : Nat × Machine :=
  let (ifa_addr, s) := load_ptr L s (ifap + L.ifa_addr)
  LLADDR L s ifa_addr

/-! ## Concrete inputs -/

/-- Memory holding the given cells, zero elsewhere. -/
def mem_of (cells : List (Nat × Nat)) (a : Nat) : Nat :=
  match cells.find? (fun c => c.1 == a) with
  | some c => c.2
  | none => 0

/-- Layout of a 64-bit little-endian BSD-family target (macOS, FreeBSD). -/
def bsd64 : Layout :=
  { ptr_size := 8, big_endian := false, ifa_addr := 24, sdl_nlen := 5, sdl_data := 8 }

/-- The record of interface `en0`: a `struct ifaddrs` at `0x1000` whose
`ifa_addr` points to a `struct sockaddr_dl` at `0x2000` with `sdl_len = 20`,
`sdl_family = AF_LINK (18)`, `sdl_index = 4`, `sdl_type = IFT_ETHER (6)`,
`sdl_nlen = 3`, `sdl_alen = 6`, name `en0` and address `02:11:22:33:44:55`. -/
def en0 : Machine :=
  { mem := mem_of
      [(0x1018, 0x00), (0x1019, 0x20),
       (0x2000, 20), (0x2001, 18), (0x2002, 4), (0x2004, 6), (0x2005, 3), (0x2006, 6),
       (0x2008, 0x65), (0x2009, 0x6e), (0x200a, 0x30),
       (0x200b, 0x02), (0x200c, 0x11), (0x200d, 0x22), (0x200e, 0x33), (0x200f, 0x44),
       (0x2010, 0x55)],
    allocated := [(0x1000, 56), (0x2000, 20)] }

/-- A Linux target: `__linux__`, `__unix__` and `_POSIX_VERSION`. -/
def linux_target : Target :=
  { __linux__ := some 1, __unix__ := some 1, _POSIX_VERSION := some 200809 }

/-- A 64-bit Windows target. -/
def win64_target : Target := { _WIN32 := some 1, _WIN64 := some 1 }

/-- A macOS target: `TargetConditionals.h` gives `TARGET_OS_MAC` 1 and the two
iPhone symbols 0; `<sys/param.h>` defines `BSD`. -/
def macos_target : Target :=
  { __APPLE__ := some 1, __MACH__ := some 1, TARGET_IPHONE_SIMULATOR := some 0,
    TARGET_OS_IPHONE := some 0, TARGET_OS_MAC := some 1, BSD := some 199506,
    _POSIX_VERSION := some 200112 }

/-- An iOS device target: `TARGET_OS_IPHONE` and `TARGET_OS_MAC` are both 1. -/
def ios_target : Target :=
  { __APPLE__ := some 1, __MACH__ := some 1, TARGET_IPHONE_SIMULATOR := some 0,
    TARGET_OS_IPHONE := some 1, TARGET_OS_MAC := some 1, BSD := some 199506 }

/-- An Apple target on which no `TARGET_*` symbol is non-zero. -/
def apple_unknown_target : Target :=
  { __APPLE__ := some 1, __MACH__ := some 1, TARGET_IPHONE_SIMULATOR := some 0,
    TARGET_OS_IPHONE := some 0, TARGET_OS_MAC := some 0, BSD := some 199506 }

/-- A target with no OS-family discriminator, only `__unix__` and
`_POSIX_VERSION`. -/
def bare_unix_target : Target := { __unix__ := some 1, _POSIX_VERSION := some 200809 }

/-! ## The classifier, field by field -/

/-- The macros and diagnostics the cascade of lines 7-32 leaves behind. -/
theorem os_cascade_fields (t : Target) (u : TU) :
    (os_cascade t u).OS_WINDOWS = (if defined t._WIN32 then some 1 else u.OS_WINDOWS) ∧
    (os_cascade t u).OS_WIN64 =
      (if defined t._WIN32 && defined t._WIN64 then some 1 else u.OS_WIN64) ∧
    (os_cascade t u).OS_WIN32 =
      (if defined t._WIN32 && !defined t._WIN64 then some 1 else u.OS_WIN32) ∧
    (os_cascade t u).OS_IOS =
      (if !defined t._WIN32 && truthy t.__APPLE__ &&
          (truthy t.TARGET_IPHONE_SIMULATOR || truthy t.TARGET_OS_IPHONE) then some 1
        else u.OS_IOS) ∧
    (os_cascade t u).OS_IOS_SIMULATOR =
      (if !defined t._WIN32 && truthy t.__APPLE__ && truthy t.TARGET_IPHONE_SIMULATOR then some 1
        else u.OS_IOS_SIMULATOR) ∧
    (os_cascade t u).OS_MACOS =
      (if !defined t._WIN32 && truthy t.__APPLE__ && !truthy t.TARGET_IPHONE_SIMULATOR
          && !truthy t.TARGET_OS_IPHONE && truthy t.TARGET_OS_MAC then some 1
        else u.OS_MACOS) ∧
    (os_cascade t u).OS_LINUX =
      (if !defined t._WIN32 && !truthy t.__APPLE__ && truthy t.__linux__ then some 1
        else u.OS_LINUX) ∧
    (os_cascade t u).OS_BSD =
      (if !defined t._WIN32 && !truthy t.__APPLE__ && !truthy t.__linux__ && defined t.BSD
        then some 1 else u.OS_BSD) ∧
    (os_cascade t u).errors =
      (if !defined t._WIN32 && truthy t.__APPLE__ && !truthy t.TARGET_IPHONE_SIMULATOR
          && !truthy t.TARGET_OS_IPHONE && !truthy t.TARGET_OS_MAC
        then u.errors ++ ["Unknown Apple platform"] else u.errors) ∧
    (os_cascade t u).OS_UNIX = u.OS_UNIX ∧ (os_cascade t u).OS_POSIX = u.OS_POSIX := by
  unfold os_cascade
  cases defined t._WIN32 <;> cases defined t._WIN64 <;> cases truthy t.__APPLE__ <;>
    cases truthy t.TARGET_IPHONE_SIMULATOR <;> cases truthy t.TARGET_OS_IPHONE <;>
    cases truthy t.TARGET_OS_MAC <;> cases truthy t.__linux__ <;> cases defined t.BSD <;>
    simp [TU.error, TU.include_]

/-- Lines 2-4 define no macro and raise no diagnostic. -/
theorem include_sys_param_fields (t : Target) (u : TU) :
    (include_sys_param t u).primary = u.primary ∧
    (include_sys_param t u).OS_UNIX = u.OS_UNIX ∧
    (include_sys_param t u).OS_POSIX = u.OS_POSIX ∧
    (include_sys_param t u).errors = u.errors := by
  unfold include_sys_param
  split_ifs <;> simp [TU.include_, TU.primary]

/-- Lines 35-37 touch `OS_UNIX` only. -/
theorem general_unix_fields (t : Target) (u : TU) :
    (general_unix t u).primary = u.primary ∧
    (general_unix t u).OS_UNIX = (if truthy t.__unix__ then some 1 else u.OS_UNIX) ∧
    (general_unix t u).OS_POSIX = u.OS_POSIX ∧
    (general_unix t u).errors = u.errors ∧
    (general_unix t u).includes = u.includes := by
  unfold general_unix
  split_ifs <;> simp [TU.primary]

/-- Lines 39-41 touch `OS_POSIX` only. -/
theorem general_posix_fields (t : Target) (u : TU) :
    (general_posix t u).primary = u.primary ∧
    (general_posix t u).OS_UNIX = u.OS_UNIX ∧
    (general_posix t u).OS_POSIX = (if defined t._POSIX_VERSION then some 1 else u.OS_POSIX) ∧
    (general_posix t u).errors = u.errors ∧
    (general_posix t u).includes = u.includes := by
  unfold general_posix
  split_ifs <;> simp [TU.primary]

/-- Lines 43-45 define no macro; they raise the diagnostic or do nothing. -/
theorem check_known_fields (u : TU) :
    (check_known u).primary = u.primary ∧
    (check_known u).OS_UNIX = u.OS_UNIX ∧
    (check_known u).OS_POSIX = u.OS_POSIX ∧
    (check_known u).includes = u.includes ∧
    (check_known u).errors =
      (if !defined u.OS_LINUX && !defined u.OS_MACOS && !defined u.OS_IOS
          && !defined u.OS_WINDOWS && !defined u.OS_BSD
        then u.errors ++ ["Unknown compiler"] else u.errors) := by
  unfold check_known
  split_ifs <;> simp [TU.error, TU.primary]

/-- The primary macros of the classifier are those the cascade defines. -/
theorem classify_primary (t : Target) :
    (classify t).primary = (os_cascade t (include_sys_param t {})).primary := by
  unfold classify
  rw [(check_known_fields _).1, (general_posix_fields t _).1, (general_unix_fields t _).1]

/-- Closed form of every macro and of the diagnostics of the classifier. -/
theorem classify_fields (t : Target) :
    (classify t).OS_WINDOWS = (if defined t._WIN32 then some 1 else none) ∧
    (classify t).OS_WIN64 = (if defined t._WIN32 && defined t._WIN64 then some 1 else none) ∧
    (classify t).OS_WIN32 = (if defined t._WIN32 && !defined t._WIN64 then some 1 else none) ∧
    (classify t).OS_IOS =
      (if !defined t._WIN32 && truthy t.__APPLE__ &&
          (truthy t.TARGET_IPHONE_SIMULATOR || truthy t.TARGET_OS_IPHONE) then some 1
        else none) ∧
    (classify t).OS_IOS_SIMULATOR =
      (if !defined t._WIN32 && truthy t.__APPLE__ && truthy t.TARGET_IPHONE_SIMULATOR then some 1
        else none) ∧
    (classify t).OS_MACOS =
      (if !defined t._WIN32 && truthy t.__APPLE__ && !truthy t.TARGET_IPHONE_SIMULATOR
          && !truthy t.TARGET_OS_IPHONE && truthy t.TARGET_OS_MAC then some 1
        else none) ∧
    (classify t).OS_LINUX =
      (if !defined t._WIN32 && !truthy t.__APPLE__ && truthy t.__linux__ then some 1
        else none) ∧
    (classify t).OS_BSD =
      (if !defined t._WIN32 && !truthy t.__APPLE__ && !truthy t.__linux__ && defined t.BSD
        then some 1 else none) ∧
    (classify t).OS_UNIX = (if truthy t.__unix__ then some 1 else none) ∧
    (classify t).OS_POSIX = (if defined t._POSIX_VERSION then some 1 else none) ∧
    (classify t).errors =
      (if apple_unknown t then ["Unknown Apple platform"] else []) ++
      (if no_family t then ["Unknown compiler"] else []) := by
  have hp := classify_primary t
  have hi := include_sys_param_fields t {}
  obtain ⟨c1, c2, c3, c4, c5, c6, c7, c8, c9, c10, c11⟩ :=
    os_cascade_fields t (include_sys_param t {})
  simp only [TU.primary, List.cons.injEq, and_true] at hp hi
  obtain ⟨p1, p2, p3, p4, p5, p6, p7, p8⟩ := hp
  obtain ⟨⟨i1, i2, i3, i4, i5, i6, i7, i8⟩, i9, i10, i11⟩ := hi
  rw [i1] at c1; rw [i2] at c2; rw [i3] at c3; rw [i4] at c4; rw [i5] at c5; rw [i6] at c6
  rw [i7] at c7; rw [i8] at c8; rw [i11] at c9; rw [i9] at c10; rw [i10] at c11
  rw [p1, p2, p3, p4, p5, p6, p7, p8]
  refine ⟨c1, c2, c3, c4, c5, c6, c7, c8, ?_, ?_, ?_⟩
  · unfold classify
    rw [(check_known_fields _).2.1, (general_posix_fields t _).2.1,
      (general_unix_fields t _).2.1, c10]
  · unfold classify
    rw [(check_known_fields _).2.2.1, (general_posix_fields t _).2.2.1,
      (general_unix_fields t _).2.2.1, c11]
  · have q := (check_known_fields
      (general_posix t (general_unix t (os_cascade t (include_sys_param t {}))))).2.2.2.2
    have hq := (general_posix_fields t (general_unix t (os_cascade t (include_sys_param t {})))).1
    rw [(general_unix_fields t _).1] at hq
    simp only [TU.primary, List.cons.injEq, and_true] at hq
    obtain ⟨q1, q2, q3, q4, q5, q6, q7, q8⟩ := hq
    rw [q1, q4, q6, q7, q8, (general_posix_fields t _).2.2.2.1,
      (general_unix_fields t _).2.2.2.1, c1, c4, c6, c7, c8, c9] at q
    unfold classify
    rw [q]
    unfold apple_unknown no_family
    cases defined t._WIN32 <;> cases truthy t.__APPLE__ <;>
      cases truthy t.TARGET_IPHONE_SIMULATOR <;> cases truthy t.TARGET_OS_IPHONE <;>
      cases truthy t.TARGET_OS_MAC <;> cases truthy t.__linux__ <;> cases defined t.BSD <;>
      simp [defined]

/-- The headers lines 1-45 include: `<sys/param.h>` and, in the Apple branch,
`"TargetConditionals.h"`. -/
theorem classify_includes (t : Target) :
    (classify t).includes =
      (if defined t.__unix__ || (defined t.__APPLE__ && defined t.__MACH__)
        then ["sys/param.h"] else []) ++
      (if !defined t._WIN32 && truthy t.__APPLE__ then ["TargetConditionals.h"] else []) := by
  have hc : ∀ u : TU, (os_cascade t u).includes =
      u.includes ++
        (if !defined t._WIN32 && truthy t.__APPLE__ then ["TargetConditionals.h"] else []) := by
    intro u
    unfold os_cascade
    cases defined t._WIN32 <;> cases defined t._WIN64 <;> cases truthy t.__APPLE__ <;>
      cases truthy t.TARGET_IPHONE_SIMULATOR <;> cases truthy t.TARGET_OS_IPHONE <;>
      cases truthy t.TARGET_OS_MAC <;> cases truthy t.__linux__ <;> cases defined t.BSD <;>
      simp [TU.error, TU.include_]
  unfold classify
  rw [(check_known_fields _).2.2.2.1, (general_posix_fields t _).2.2.2.2,
    (general_unix_fields t _).2.2.2.2, hc]
  unfold include_sys_param
  split_ifs <;> simp [TU.include_]

/-- Lines 48-64 define no macro and raise no diagnostic; they append the common
headers, `<net/if_dl.h>` under its guard, and the function. -/
theorem helpers_c_fields (t : Target) :
    (helpers_c t).primary = (classify t).primary ∧
    (helpers_c t).errors = (classify t).errors ∧
    (helpers_c t).includes =
      (classify t).includes ++
        ["stdlib.h", "stdint.h", "sys/ioctl.h", "sys/socket.h", "net/if.h", "ifaddrs.h"] ++
        (if defined (classify t).OS_MACOS || defined (classify t).OS_BSD
          then ["net/if_dl.h"] else []) ∧
    (helpers_c t).functions = (classify t).functions ++ ["rust_LLADDR"] := by
  unfold helpers_c define_rust_LLADDR include_if_dl include_common
  split_ifs <;> simp_all [TU.include_, TU.primary]

/-! ## The accessor -/

/-- Reading fewer bytes from the same address gives a prefix. -/
theorem load_bytes_take (s : Machine) (a n k : Nat) (h : k ≤ n) :
    load_bytes s a k = (load_bytes s a n).take k := by
  unfold load_bytes
  rw [← List.map_take, List.take_range, Nat.min_eq_left h]

/-- The loads and `LLADDR` hand the machine state on as they received it. -/
theorem rust_LLADDR_state (L : Layout) (s : Machine) (ifap : Nat) :
    (rust_LLADDR L s ifap).2 = s := rfl

/-- The pointer `rust_LLADDR` returns, in terms of the two loads it makes. -/
theorem rust_LLADDR_value (L : Layout) (s : Machine) (ifap : Nat) :
    (rust_LLADDR L s ifap).1 =
      (load_ptr L s (ifap + L.ifa_addr)).1 + L.sdl_data +
        (load_u8 s ((load_ptr L s (ifap + L.ifa_addr)).1 + L.sdl_nlen)).1 := rfl

/-! ## The claims on the classifier -/

/-- C2: on every combination of target symbols on which the Apple sub-target
check raises no diagnostic, the diagnostic "Unknown compiler" is raised exactly
when none of `OS_LINUX`, `OS_MACOS`, `OS_IOS`, `OS_WINDOWS`, `OS_BSD` ended
up defined; and when no OS-family discriminator is there at all (no `_WIN32`,
`__APPLE__`, `__linux__`, `BSD`), whatever `__unix__` and `_POSIX_VERSION` are,
it is raised and translation aborts. -/
theorem unknown_compiler_iff (t : Target)
    (h : "Unknown Apple platform" ∉ (classify t).errors) :
    ("Unknown compiler" ∈ (classify t).errors ↔
      (defined (classify t).OS_LINUX = false ∧ defined (classify t).OS_MACOS = false ∧
        defined (classify t).OS_IOS = false ∧ defined (classify t).OS_WINDOWS = false ∧
        defined (classify t).OS_BSD = false)) ∧
    (defined t._WIN32 = false → truthy t.__APPLE__ = false → truthy t.__linux__ = false →
      defined t.BSD = false →
      "Unknown compiler" ∈ (classify t).errors ∧ (classify t).aborts = true) := by
  obtain ⟨f1, -, -, f4, -, f6, f7, f8, -, -, f11⟩ := classify_fields t
  unfold TU.aborts
  rw [f11] at h ⊢
  rw [f1, f4, f6, f7, f8]
  revert h
  unfold apple_unknown no_family
  cases defined t._WIN32 <;> cases truthy t.__APPLE__ <;>
    cases truthy t.TARGET_IPHONE_SIMULATOR <;> cases truthy t.TARGET_OS_IPHONE <;>
    cases truthy t.TARGET_OS_MAC <;> cases truthy t.__linux__ <;> cases defined t.BSD <;>
    simp [defined]

/-- Witness of C2 on a target with `__unix__` and `_POSIX_VERSION` only. -/
theorem unknown_compiler_iff_witness :
    "Unknown Apple platform" ∉ (classify bare_unix_target).errors ∧
    "Unknown compiler" ∈ (classify bare_unix_target).errors ∧
    (classify bare_unix_target).aborts = true :=
  ⟨by decide,
    (unknown_compiler_iff bare_unix_target (by decide)).2 (by decide) (by decide) (by decide)
      (by decide)⟩

/-- C3: on every combination of target symbols the diagnostic
"Unknown Apple platform" is raised exactly when the target is Apple (`_WIN32`
not defined, `__APPLE__` non-zero) and each of `TARGET_IPHONE_SIMULATOR`,
`TARGET_OS_IPHONE`, `TARGET_OS_MAC` is undefined or zero; and in that case
translation aborts and no `OS_*` macro of the primary classification
is defined. -/
theorem unknown_apple_iff (t : Target) :
    ("Unknown Apple platform" ∈ (classify t).errors ↔
      (defined t._WIN32 = false ∧ truthy t.__APPLE__ = true ∧
        truthy t.TARGET_IPHONE_SIMULATOR = false ∧ truthy t.TARGET_OS_IPHONE = false ∧
        truthy t.TARGET_OS_MAC = false)) ∧
    ("Unknown Apple platform" ∈ (classify t).errors →
      (classify t).aborts = true ∧
      (classify t).primary = [none, none, none, none, none, none, none, none]) := by
  obtain ⟨f1, f2, f3, f4, f5, f6, f7, f8, -, -, f11⟩ := classify_fields t
  unfold TU.aborts TU.primary
  rw [f11, f1, f2, f3, f4, f5, f6, f7, f8]
  unfold apple_unknown no_family
  cases defined t._WIN32 <;> cases truthy t.__APPLE__ <;>
    cases truthy t.TARGET_IPHONE_SIMULATOR <;> cases truthy t.TARGET_OS_IPHONE <;>
    cases truthy t.TARGET_OS_MAC <;> cases truthy t.__linux__ <;> cases defined t.BSD <;>
    simp

/-- Witness of C3 on an Apple target whose three `TARGET_*` symbols are 0. -/
theorem unknown_apple_iff_witness :
    "Unknown Apple platform" ∈ (classify apple_unknown_target).errors ∧
    (classify apple_unknown_target).aborts = true ∧
    (classify apple_unknown_target).primary = [none, none, none, none, none, none, none, none] :=
  ⟨by decide, (unknown_apple_iff apple_unknown_target).2 (by decide)⟩

/-- C4: on every Apple target (`_WIN32` not defined, `__APPLE__` non-zero) the
sub-target tests are made in the order simulator, iPhone, Mac: a non-zero
`TARGET_IPHONE_SIMULATOR` gives `OS_IOS` and `OS_IOS_SIMULATOR` and no
`OS_MACOS`; otherwise a non-zero `TARGET_OS_IPHONE` gives `OS_IOS` alone, also
when `TARGET_OS_MAC` is non-zero; otherwise a non-zero `TARGET_OS_MAC` gives
`OS_MACOS` alone.  On every target `OS_IOS_SIMULATOR` implies `OS_IOS`, and
`OS_IOS` and `OS_MACOS` are never both defined. -/
theorem apple_priority (t : Target) :
    (defined t._WIN32 = false → truthy t.__APPLE__ = true →
      (truthy t.TARGET_IPHONE_SIMULATOR = true →
        (classify t).OS_IOS = some 1 ∧ (classify t).OS_IOS_SIMULATOR = some 1 ∧
          (classify t).OS_MACOS = none) ∧
      (truthy t.TARGET_IPHONE_SIMULATOR = false → truthy t.TARGET_OS_IPHONE = true →
        (classify t).OS_IOS = some 1 ∧ (classify t).OS_IOS_SIMULATOR = none ∧
          (classify t).OS_MACOS = none) ∧
      (truthy t.TARGET_IPHONE_SIMULATOR = false → truthy t.TARGET_OS_IPHONE = false →
        truthy t.TARGET_OS_MAC = true →
        (classify t).OS_MACOS = some 1 ∧ (classify t).OS_IOS = none ∧
          (classify t).OS_IOS_SIMULATOR = none)) ∧
    (defined (classify t).OS_IOS_SIMULATOR = true → defined (classify t).OS_IOS = true) ∧
    ¬ (defined (classify t).OS_IOS = true ∧ defined (classify t).OS_MACOS = true) := by
  obtain ⟨-, -, -, f4, f5, f6, -⟩ := classify_fields t
  rw [f4, f5, f6]
  cases defined t._WIN32 <;> cases truthy t.__APPLE__ <;>
    cases truthy t.TARGET_IPHONE_SIMULATOR <;> cases truthy t.TARGET_OS_IPHONE <;>
    cases truthy t.TARGET_OS_MAC <;> simp [defined]

/-- Witness of C4 on an iOS device target, where `TARGET_OS_IPHONE` and
`TARGET_OS_MAC` are both 1. -/
theorem apple_priority_witness :
    truthy ios_target.TARGET_OS_MAC = true ∧
    (classify ios_target).OS_IOS = some 1 ∧ (classify ios_target).OS_IOS_SIMULATOR = none ∧
    (classify ios_target).OS_MACOS = none :=
  ⟨by decide,
    ((apple_priority ios_target).1 (by decide) (by decide)).2.1 (by decide) (by decide)⟩

/-- C5: when `_WIN32` is defined the classifier defines `OS_WINDOWS` and exactly
one of `OS_WIN32` / `OS_WIN64`: `OS_WIN64` when `_WIN64` is defined, `OS_WIN32`
otherwise; when `_WIN32` is not defined it defines none of the three. -/
theorem windows_flags (t : Target) :
    (defined t._WIN32 = true →
      (classify t).OS_WINDOWS = some 1 ∧
      (defined (classify t).OS_WIN64 = true ↔ defined t._WIN64 = true) ∧
      (defined (classify t).OS_WIN32 = true ↔ defined t._WIN64 = false) ∧
      (defined (classify t).OS_WIN32 = !defined (classify t).OS_WIN64)) ∧
    (defined t._WIN32 = false →
      (classify t).OS_WINDOWS = none ∧ (classify t).OS_WIN32 = none ∧
        (classify t).OS_WIN64 = none) := by
  obtain ⟨f1, f2, f3, -⟩ := classify_fields t
  rw [f1, f2, f3]
  cases defined t._WIN32 <;> cases defined t._WIN64 <;> simp [defined]

/-- Witness of C5 on a 64-bit Windows target. -/
theorem windows_flags_witness :
    (classify win64_target).OS_WINDOWS = some 1 ∧
    (defined (classify win64_target).OS_WIN64 = true ↔ defined win64_target._WIN64 = true) ∧
    (defined (classify win64_target).OS_WIN32 = true ↔ defined win64_target._WIN64 = false) ∧
    (defined (classify win64_target).OS_WIN32 = !defined (classify win64_target).OS_WIN64) :=
  (windows_flags win64_target).1 (by decide)

/-- C6: on every combination of target symbols at most one of the four
families Windows, Apple (`OS_IOS` or `OS_MACOS`), Linux, BSD is flagged, and a
flagged family is the first, in that order, whose discriminator is present;
conversely the first present family is flagged, for Apple when one of its
sub-target tests succeeds.  `OS_LINUX` is defined exactly when the target is
neither Windows nor Apple and `__linux__` is present, and `OS_BSD` exactly when
the target is none of Windows, Apple, Linux and `BSD` is defined. -/
theorem first_match (t : Target) :
    (∀ f g, Family.flagged (classify t) f = true → Family.flagged (classify t) g = true →
      f = g) ∧
    (∀ f, Family.flagged (classify t) f = true → first_family t = some f) ∧
    (∀ f, f ≠ Family.apple → first_family t = some f →
      Family.flagged (classify t) f = true) ∧
    (first_family t = some Family.apple →
      (Family.flagged (classify t) Family.apple = true ↔
        (truthy t.TARGET_IPHONE_SIMULATOR = true ∨ truthy t.TARGET_OS_IPHONE = true ∨
          truthy t.TARGET_OS_MAC = true))) ∧
    (defined (classify t).OS_LINUX = true ↔
      (defined t._WIN32 = false ∧ truthy t.__APPLE__ = false ∧ truthy t.__linux__ = true)) ∧
    (defined (classify t).OS_BSD = true ↔
      (defined t._WIN32 = false ∧ truthy t.__APPLE__ = false ∧ truthy t.__linux__ = false ∧
        defined t.BSD = true)) := by
  obtain ⟨f1, -, -, f4, -, f6, f7, f8, -⟩ := classify_fields t
  have key : ∀ f, Family.flagged (classify t) f = true → first_family t = some f := by
    intro f
    cases f <;>
      simp only [Family.flagged, first_family, Family.order, List.find?, Family.present,
        f1, f4, f6, f7, f8] <;>
      cases defined t._WIN32 <;> cases truthy t.__APPLE__ <;>
      cases truthy t.TARGET_IPHONE_SIMULATOR <;> cases truthy t.TARGET_OS_IPHONE <;>
      cases truthy t.TARGET_OS_MAC <;> cases truthy t.__linux__ <;> cases defined t.BSD <;>
      simp [defined]
  refine ⟨?_, key, ?_, ?_, ?_, ?_⟩
  · intro f g hf hg
    exact Option.some.inj ((key f hf).symm.trans (key g hg))
  · intro f
    cases f <;>
      simp only [Family.flagged, first_family, Family.order, List.find?, Family.present,
        f1, f4, f6, f7, f8] <;>
      cases defined t._WIN32 <;> cases truthy t.__APPLE__ <;>
      cases truthy t.TARGET_IPHONE_SIMULATOR <;> cases truthy t.TARGET_OS_IPHONE <;>
      cases truthy t.TARGET_OS_MAC <;> cases truthy t.__linux__ <;> cases defined t.BSD <;>
      simp [defined]
  · simp only [Family.flagged, first_family, Family.order, List.find?, Family.present,
        f1, f4, f6, f7, f8]
    cases defined t._WIN32 <;> cases truthy t.__APPLE__ <;>
      cases truthy t.TARGET_IPHONE_SIMULATOR <;> cases truthy t.TARGET_OS_IPHONE <;>
      cases truthy t.TARGET_OS_MAC <;> cases truthy t.__linux__ <;> cases defined t.BSD <;>
      simp [defined]
  · rw [f7]
    cases defined t._WIN32 <;> cases truthy t.__APPLE__ <;> cases truthy t.__linux__ <;>
      simp [defined]
  · rw [f8]
    cases defined t._WIN32 <;> cases truthy t.__APPLE__ <;> cases truthy t.__linux__ <;>
      cases defined t.BSD <;> simp [defined]

/-- Witness of C6 on a macOS target, on which `BSD` is defined too: the Apple
family is the first present and `OS_BSD` is not defined. -/
theorem first_match_witness :
    defined macos_target.BSD = true ∧
    Family.flagged (classify macos_target) Family.apple = true ∧
    first_family macos_target = some Family.apple ∧
    ¬ defined (classify macos_target).OS_BSD = true :=
  ⟨by decide, by decide, (first_match macos_target).2.1 Family.apple (by decide),
    fun h => absurd ((first_match macos_target).2.2.2.2.2.1 h).2.1 (by decide)⟩

/-- C7: on every combination of target symbols on which classification does
not abort, `OS_UNIX` is defined exactly when `__unix__` is present and
`OS_POSIX` exactly when `_POSIX_VERSION` is defined; the two directive groups
that define them leave every macro of the primary classification as it was,
and the primary classification does not depend on `__unix__` or
`_POSIX_VERSION`. -/
theorem general_flags (t : Target) (_h : (classify t).aborts = false) :
    (defined (classify t).OS_UNIX = true ↔ truthy t.__unix__ = true) ∧
    (defined (classify t).OS_POSIX = true ↔ defined t._POSIX_VERSION = true) ∧
    (∀ u : TU, (general_unix t u).primary = u.primary ∧
      (general_posix t u).primary = u.primary) ∧
    (∀ x p : Macro,
      (classify { t with __unix__ := x, _POSIX_VERSION := p }).primary =
        (classify t).primary) := by
  obtain ⟨f1, f2, f3, f4, f5, f6, f7, f8, f9, f10, -⟩ := classify_fields t
  refine ⟨?_, ?_, ?_, ?_⟩
  · rw [f9]
    cases truthy t.__unix__ <;> simp [defined]
  · rw [f10]
    cases defined t._POSIX_VERSION <;> simp [defined]
  · intro u
    exact ⟨(general_unix_fields t u).1, (general_posix_fields t u).1⟩
  · intro x p
    obtain ⟨g1, g2, g3, g4, g5, g6, g7, g8, -⟩ :=
      classify_fields { t with __unix__ := x, _POSIX_VERSION := p }
    unfold TU.primary
    rw [f1, f2, f3, f4, f5, f6, f7, f8, g1, g2, g3, g4, g5, g6, g7, g8]

/-- Witness of C7 on a Linux target. -/
theorem general_flags_witness :
    (classify linux_target).aborts = false ∧
    (defined (classify linux_target).OS_UNIX = true ↔ truthy linux_target.__unix__ = true) ∧
    (defined (classify linux_target).OS_POSIX = true ↔
      defined linux_target._POSIX_VERSION = true) :=
  ⟨by decide, (general_flags linux_target (by decide)).1,
    (general_flags linux_target (by decide)).2.1⟩

/-- C8, at a Linux target: classification passes with `OS_LINUX` alone,
`<net/if_dl.h>` is not included, and the translation unit defines `rust_LLADDR`
all the same. -/
theorem rust_LLADDR_defined_on_linux :
    (helpers_c linux_target).aborts = false ∧
    (helpers_c linux_target).primary =
      [none, none, none, none, none, none, some 1, none] ∧
    "net/if_dl.h" ∉ (helpers_c linux_target).includes ∧
    "rust_LLADDR" ∈ (helpers_c linux_target).functions := by
  decide

/-- C10: on every combination of target symbols `<net/if_dl.h>` is included
exactly when `OS_MACOS` or `OS_BSD` is defined; `rust_LLADDR` is part of every
translation unit, so the header is visible to it on macOS and BSD only; it is
not included on a classification with `OS_IOS`, `OS_IOS_SIMULATOR`, `OS_LINUX`
or `OS_WINDOWS`. -/
theorem if_dl_included_iff (t : Target) :
    ("net/if_dl.h" ∈ (helpers_c t).includes ↔
      (defined (helpers_c t).OS_MACOS = true ∨ defined (helpers_c t).OS_BSD = true)) ∧
    "rust_LLADDR" ∈ (helpers_c t).functions ∧
    ((defined (helpers_c t).OS_IOS = true ∨ defined (helpers_c t).OS_IOS_SIMULATOR = true ∨
        defined (helpers_c t).OS_LINUX = true ∨ defined (helpers_c t).OS_WINDOWS = true) →
      "net/if_dl.h" ∉ (helpers_c t).includes) := by
  obtain ⟨h1, -, h3, h4⟩ := helpers_c_fields t
  obtain ⟨f1, -, -, f4, f5, f6, f7, f8, -⟩ := classify_fields t
  simp only [TU.primary, List.cons.injEq, and_true] at h1
  obtain ⟨p1, -, -, p4, p5, p6, p7, p8⟩ := h1
  rw [h3, h4, p1, p4, p5, p6, p7, p8, classify_includes t, f1, f4, f5, f6, f7, f8]
  cases defined t._WIN32 <;> cases truthy t.__APPLE__ <;>
    cases truthy t.TARGET_IPHONE_SIMULATOR <;> cases truthy t.TARGET_OS_IPHONE <;>
    cases truthy t.TARGET_OS_MAC <;> cases truthy t.__linux__ <;> cases defined t.BSD <;>
    cases (defined t.__unix__ || (defined t.__APPLE__ && defined t.__MACH__)) <;>
    simp [defined]

/-- Witness of C10 on an iOS device target: the header is not included. -/
theorem if_dl_included_iff_witness :
    defined (helpers_c ios_target).OS_IOS = true ∧
    "net/if_dl.h" ∉ (helpers_c ios_target).includes :=
  ⟨by decide, (if_dl_included_iff ios_target).2.2 (Or.inl (by decide))⟩

/-! ## The claims on the accessor -/

/-- C1: for every record at `ifap` whose `ifa_addr` field points to a
`struct sockaddr_dl` at `sdl` with interface-name length `n` (any `n`) and
hardware-address bytes `b` stored in its data area right after the name,
`rust_LLADDR` returns `sdl_data + n`, the address of the first byte of `b`;
reading `b.length` bytes through the returned pointer gives `b`, and reading
fewer gives the corresponding prefix of `b`. -/
theorem rust_LLADDR_points_to_address (L : Layout) (s : Machine) (ifap sdl n : Nat)
    (b : List Nat)
    (hptr : (load_ptr L s (ifap + L.ifa_addr)).1 = sdl)
    (hlen : (load_u8 s (sdl + L.sdl_nlen)).1 = n)
    (hb : load_bytes s (sdl + L.sdl_data + n) b.length = b) :
    (rust_LLADDR L s ifap).1 = sdl + L.sdl_data + n ∧
    load_bytes (rust_LLADDR L s ifap).2 (rust_LLADDR L s ifap).1 b.length = b ∧
    (∀ k, k ≤ b.length →
      load_bytes (rust_LLADDR L s ifap).2 (rust_LLADDR L s ifap).1 k = b.take k) := by
  have hv : (rust_LLADDR L s ifap).1 = sdl + L.sdl_data + n := by
    rw [rust_LLADDR_value, hptr, hlen]
  rw [rust_LLADDR_state, hv]
  refine ⟨rfl, hb, ?_⟩
  intro k hk
  rw [load_bytes_take s _ b.length k hk, hb]

/-- Witness of C1: interface `en0` with a name of length 3 and the address
`02:11:22:33:44:55`; the pointer returned is `0x2000 + 8 + 3` and the six
bytes read through it are the address. -/
theorem rust_LLADDR_points_to_address_witness :
    (rust_LLADDR bsd64 en0 0x1000).1 = 0x2000 + 8 + 3 ∧
    load_bytes (rust_LLADDR bsd64 en0 0x1000).2 (rust_LLADDR bsd64 en0 0x1000).1 6 =
      [0x02, 0x11, 0x22, 0x33, 0x44, 0x55] :=
  ⟨(rust_LLADDR_points_to_address bsd64 en0 0x1000 0x2000 3 [0x02, 0x11, 0x22, 0x33, 0x44, 0x55]
      (by decide) (by decide) (by decide)).1,
    (rust_LLADDR_points_to_address bsd64 en0 0x1000 0x2000 3 [0x02, 0x11, 0x22, 0x33, 0x44, 0x55]
      (by decide) (by decide) (by decide)).2.1⟩

/-- C9: on every machine state and every record pointer, `rust_LLADDR` returns
the machine state it was given: every byte of memory is as before and the set
of allocated blocks is the same; a second call on the same input returns the
same pointer, and the bytes read through it are those read before the calls. -/
theorem rust_LLADDR_pure (L : Layout) (s : Machine) (ifap : Nat) :
    (rust_LLADDR L s ifap).2 = s ∧
    (∀ a, (rust_LLADDR L s ifap).2.mem a = s.mem a) ∧
    (rust_LLADDR L s ifap).2.allocated = s.allocated ∧
    (rust_LLADDR L (rust_LLADDR L s ifap).2 ifap).1 = (rust_LLADDR L s ifap).1 ∧
    (∀ n, load_bytes (rust_LLADDR L (rust_LLADDR L s ifap).2 ifap).2
        (rust_LLADDR L (rust_LLADDR L s ifap).2 ifap).1 n =
      load_bytes s (rust_LLADDR L s ifap).1 n) := by
  refine ⟨rfl, fun _ => rfl, rfl, rfl, fun _ => rfl⟩

end Helpers
